import Mathlib

/-!
Shallow embedding of `src/settlement_stats.py` (tribe/settlement statistics
calculator). Python ints are modelled as `Int`; Python floats (only used for
production and battle-power percentages and scaling) are modelled as `Rat`,
with float literals read as the decimal rationals they denote. Python floor
division `//` is `Int.fdiv`; Python `int()` applied to a float truncates
toward zero, which on a rational with denominator 2 is `Int.tdiv` of the
doubled numerator. Python dicts with fixed string keys are modelled as
structures with one field per key.
-/

namespace SettlementStats

inductive Climate where
  | tropical
  | temperate
  | polar
  | snow
deriving DecidableEq, Repr

inductive WaterBody where
  | none
  | river
  | sea
  | endorheic_lake
  | flowing_lake
deriving DecidableEq, Repr

inductive Cult where
  | none
  | strength
  | labour
  | mind
  | health
  | beauty
  | renunciation
deriving DecidableEq, Repr

structure WeaponStock where
  clubs : Int := 0
  spears : Int := 0
  bows : Int := 0
deriving DecidableEq, Repr

def WeaponStock.total (w : WeaponStock) : Int :=
  w.clubs + w.spears + w.bows

structure ToolCoverage where
  hammers_pct : Int := 0
  clothing_pct : Int := 0
  alcohol_pct : Int := 0
  rafts_pct : Int := 0
deriving DecidableEq, Repr

structure Items where
  settlement : Bool := false
  wagon : Bool := false
  casino_totem : Bool := false
deriving DecidableEq, Repr

structure TechState where
  agriculture : Bool := false
  husbandry : Bool := false
  wheel : Bool := false
  building : Bool := false
  swimming : Bool := false
  alcoholism : Bool := false
  clothes : Bool := false
deriving DecidableEq, Repr

structure TraitEffects where
  fertility_bonus : Int := 0
  cold_mortality_delta : Int := 0
  disease_mortality_delta : Int := 0
  production_pct : Rat := 0
  bm_pct : Rat := 0
  speed_delta : Int := 0
  science_delta : Int := 0
deriving DecidableEq, Repr

structure TribeInput where
  population : Int := 1000
  experience : Int := 4
  base_fertility : Int := 40
  climate : Climate := Climate.tropical
  near_fresh_water : Bool := false
  water_body : WaterBody := WaterBody.none
  has_fish_resource : Bool := false
  tools : ToolCoverage := {}
  weapons : WeaponStock := {}
  items : Items := {}
  tech : TechState := {}
  cult : Cult := Cult.none
  trait_effects : TraitEffects := {}
deriving DecidableEq, Repr

structure FertilityBreakdown where
  fertility : Int
  cold_mortality : Int
  disease_mortality : Int
  raft_bonus : Int
deriving DecidableEq, Repr

def FertilityBreakdown.growth_rate (f : FertilityBreakdown) : Int :=
  f.fertility + f.raft_bonus - f.cold_mortality - f.disease_mortality

structure ProductionStats where
  base_op : Rat
  hammer_bonus : Rat
  cult_modifier : Rat
  trait_modifier : Rat
deriving DecidableEq, Repr

def ProductionStats.total_op (p : ProductionStats) : Rat :=
  (p.base_op + p.hammer_bonus) * (1 + p.cult_modifier + p.trait_modifier)

/-- Models the Python dict `{"bows": _, "spears": _, "clubs": _}`. -/
structure WeaponUsage where
  bows : Int
  spears : Int
  clubs : Int
deriving DecidableEq, Repr

structure BattleStats where
  battle_power_raw : Rat
  battle_power_scaled : Rat
  weapon_usage : WeaponUsage
deriving DecidableEq, Repr

structure ScienceStats where
  passive_science : Int
  cult_bonus : Int
  item_bonus : Int
deriving DecidableEq, Repr

def ScienceStats.total_science (s : ScienceStats) : Int :=
  s.passive_science + s.cult_bonus + s.item_bonus

/-- Models the Python dict `{"human": _, "animal": _, "plant": _}`. -/
structure DnaIncome where
  human : Int
  animal : Int
  plant : Int
deriving DecidableEq, Repr

structure TribeStats where
  fertility : FertilityBreakdown
  production : ProductionStats
  battle : BattleStats
  science : ScienceStats
  dna_income : DnaIncome
  speed : Int
  max_squads : Int
deriving DecidableEq, Repr

def CLIMATE_COLD_MORTALITY : Climate → Int
  | Climate.tropical => 0
  | Climate.temperate => 10
  | Climate.polar => 20
  | Climate.snow => 30

def CLIMATE_DISEASE_MORTALITY : Climate → Int
  | Climate.tropical => 20
  | Climate.temperate => 15
  | Climate.polar => 10
  | Climate.snow => 5

/-- `RAFT_FERTILITY_BONUS.get(water_body, 0)`: the dict has no entry for
`none`, so the lookup defaults to 0 there. -/
def RAFT_FERTILITY_BONUS : WaterBody → Int
  | WaterBody.sea => 4
  | WaterBody.river => 6
  | WaterBody.endorheic_lake => 6
  | WaterBody.flowing_lake => 8
  | WaterBody.none => 0

def _apply_clothing (cold_mortality : Int) (coverage_pct : Int) : Int :=
  let steps := Int.fdiv coverage_pct 20
  max 0 (cold_mortality - steps * 10)

def _apply_alcohol (disease_mortality : Int) (coverage_pct : Int) : Int :=
  let steps := Int.fdiv coverage_pct 5
  max 0 (disease_mortality - steps)

def _raft_bonus (input_data : TribeInput) : Int :=
  if input_data.tools.rafts_pct = 0 then 0
  else
    let steps := Int.fdiv input_data.tools.rafts_pct 20
    let base_bonus := RAFT_FERTILITY_BONUS input_data.water_body
    if base_bonus = 0 then 0
    else
      let fish_bonus : Int :=
        if input_data.water_body = WaterBody.sea then 2
        else if input_data.has_fish_resource then 3
        else 0
      let penalty : Int :=
        (if input_data.tech.husbandry then 4 * steps else 0) +
        (if input_data.tech.agriculture then 4 * steps else 0)
      let total_bonus := steps * (base_bonus + fish_bonus) - penalty
      max 0 total_bonus

def calculate_fertility (input_data : TribeInput) : FertilityBreakdown :=
  let fertility :=
    input_data.base_fertility + input_data.trait_effects.fertility_bonus
  let fertility := if input_data.near_fresh_water then fertility + 10 else fertility
  let cold_mortality :=
    CLIMATE_COLD_MORTALITY input_data.climate + input_data.trait_effects.cold_mortality_delta
  let disease_mortality :=
    CLIMATE_DISEASE_MORTALITY input_data.climate + input_data.trait_effects.disease_mortality_delta
  let cold_mortality :=
    _apply_clothing cold_mortality
      (if input_data.tech.clothes then input_data.tools.clothing_pct else 0)
  let disease_mortality :=
    _apply_alcohol disease_mortality
      (if input_data.tech.alcoholism then input_data.tools.alcohol_pct else 0)
  let raft_bonus := _raft_bonus input_data
  { fertility := fertility
    cold_mortality := cold_mortality
    disease_mortality := disease_mortality
    raft_bonus := raft_bonus }

def _weapon_allocation (population : Int) (weapons : WeaponStock) : WeaponUsage :=
  let remaining := population
  let bow_used := min weapons.bows remaining
  let remaining := remaining - bow_used
  let spear_used := min weapons.spears remaining
  let remaining := remaining - spear_used
  let club_used := min weapons.clubs remaining
  { bows := bow_used, spears := spear_used, clubs := club_used }

def calculate_battle_stats (input_data : TribeInput) : BattleStats :=
  let weapon_usage := _weapon_allocation input_data.population input_data.weapons
  let weapon_bonus :=
    weapon_usage.clubs * 1 + weapon_usage.spears * 2 + weapon_usage.bows * 3
  let raw_power : Rat :=
    (((input_data.population + weapon_bonus) * input_data.experience : Int) : Rat) *
      (1 + input_data.trait_effects.bm_pct)
  let scaled_power := raw_power / 4000
  let scaled_power :=
    if input_data.items.settlement then scaled_power * (3 / 2 : Rat) else scaled_power
  { battle_power_raw := raw_power
    battle_power_scaled := scaled_power
    weapon_usage := weapon_usage }

def calculate_production (input_data : TribeInput) : ProductionStats :=
  let base_op : Rat := (input_data.population : Rat)
  let hammer_bonus : Rat :=
    ((Int.fdiv input_data.tools.hammers_pct 10 : Int) : Rat) * (5 / 100 : Rat) *
      (input_data.population : Rat)
  let cult_modifier : Rat :=
    if input_data.cult = Cult.labour then (10 / 100 : Rat)
    else if input_data.cult = Cult.renunciation then -(10 / 100 : Rat)
    else 0
  let trait_modifier := input_data.trait_effects.production_pct
  { base_op := base_op
    hammer_bonus := hammer_bonus
    cult_modifier := cult_modifier
    trait_modifier := trait_modifier }

def calculate_science (input_data : TribeInput) : ScienceStats :=
  let passive : Int := 0
  let passive :=
    if input_data.items.settlement && input_data.tech.building then passive + 1 else passive
  let passive := passive + 2
  let cult_bonus : Int :=
    if input_data.cult = Cult.mind then 1
    else if input_data.cult = Cult.renunciation then -1
    else 0
  let item_bonus : Int := 0
  let item_bonus := if input_data.items.casino_totem then item_bonus + 0 else item_bonus
  let item_bonus := item_bonus + input_data.trait_effects.science_delta
  { passive_science := passive, cult_bonus := cult_bonus, item_bonus := item_bonus }

def calculate_dna_income (input_data : TribeInput) : DnaIncome :=
  let human : Int := 1 + (if input_data.cult = Cult.renunciation then 1 else 0)
  let animal : Int := if input_data.tech.husbandry then 1 else 0
  let plant : Int := if input_data.tech.agriculture then 1 else 0
  if input_data.tech.alcoholism then
    { human := human * 2, animal := animal * 2, plant := plant * 2 }
  else
    { human := human, animal := animal, plant := plant }

def calculate_speed_and_squads (input_data : TribeInput) : Int × Int :=
  let speed := 400 + input_data.trait_effects.speed_delta
  let speed :=
    if input_data.items.wagon && input_data.tech.wheel then Int.tdiv (speed * 3) 2 else speed
  let speed :=
    if input_data.cult = Cult.health then speed + 50
    else if input_data.cult = Cult.renunciation then speed - 50
    else speed
  let fully_armed := input_data.weapons.bows ≥ input_data.population
  let fully_armed := fully_armed ∨ input_data.weapons.spears ≥ input_data.population
  let fully_armed := fully_armed ∨ input_data.weapons.clubs ≥ input_data.population
  let max_squads : Int :=
    if fully_armed then
      if input_data.weapons.bows ≥ input_data.population then 4
      else if input_data.weapons.spears ≥ input_data.population then 3
      else 2
    else 1
  let max_squads :=
    if input_data.items.wagon && input_data.tech.wheel then max max_squads 4 else max_squads
  (speed, max_squads)

def compute_stats (input_data : TribeInput) : TribeStats :=
  let fertility := calculate_fertility input_data
  let production := calculate_production input_data
  let battle := calculate_battle_stats input_data
  let science := calculate_science input_data
  let dna_income := calculate_dna_income input_data
  let speed_squads := calculate_speed_and_squads input_data
  { fertility := fertility
    production := production
    battle := battle
    science := science
    dna_income := dna_income
    speed := speed_squads.1
    max_squads := speed_squads.2 }

/-- The default `TribeInput()` of the Python dataclass. -/
def default_input : TribeInput := {}

end SettlementStats

namespace SettlementStats

/-- Input differing from the default only in a large negative trait fertility
bonus; used to exhibit a negative fertility field. -/
def c1_input : TribeInput :=
  { default_input with
    trait_effects := { default_input.trait_effects with fertility_bonus := -100 } }

/-- Input with the wagon item and the wheel technology present and a trait
speed delta of -401, making the pre-multiplier speed -1. -/
def c2_input : TribeInput :=
  { default_input with
    items := { default_input.items with wagon := true },
    tech := { default_input.tech with wheel := true },
    trait_effects := { default_input.trait_effects with speed_delta := -401 } }

/-- Input with the clothes technology unlocked, 40% clothing coverage and snow
climate; used as a concrete instance for the clothing-step theorem. -/
def c7_input : TribeInput :=
  { default_input with
    climate := Climate.snow,
    tech := { default_input.tech with clothes := true },
    tools := { default_input.tools with clothing_pct := 40 } }

/-- The default input with population set to zero. -/
def c10_input : TribeInput := { default_input with population := 0 }

/-- Characterization of the squad count: the priority chain bows, spears,
clubs against the population threshold, raised to at least 4 when both the
wagon item and the wheel technology are present. -/
theorem squads_char (i : TribeInput) :
    (calculate_speed_and_squads i).2 =
      (if i.items.wagon && i.tech.wheel then
        max
          (if i.weapons.bows ≥ i.population then 4
            else if i.weapons.spears ≥ i.population then 3
            else if i.weapons.clubs ≥ i.population then 2
            else 1) 4
      else
        (if i.weapons.bows ≥ i.population then 4
          else if i.weapons.spears ≥ i.population then 3
          else if i.weapons.clubs ≥ i.population then 2
          else 1)) := by
  simp only [calculate_speed_and_squads]
  split_ifs <;> omega

/-- C1 (amended): for every input, both mortality values produced by the
fertility calculator are non-negative after trait, clothing and alcohol
modifiers; the fertility field itself is not clamped. -/
theorem c1_mortalities_nonneg (i : TribeInput) :
    0 ≤ (calculate_fertility i).cold_mortality ∧
    0 ≤ (calculate_fertility i).disease_mortality := by
  simp only [calculate_fertility, _apply_clothing, _apply_alcohol]
  exact ⟨le_max_left 0 _, le_max_left 0 _⟩

/-- C1 counterexample: with trait fertility bonus -100 on the default input,
the fertility field of the result is -60, which is negative, refuting the
claim that the fertility value is never negative. -/
theorem c1_counterexample :
    (calculate_fertility c1_input).fertility = -60 ∧
    (calculate_fertility c1_input).fertility < 0 := by
  decide

/-- C2 (amended): with both the wagon item and the wheel technology present,
the speed is (400 + speed_delta) * 3 / 2 rounded toward zero (truncating
division, Python `int()`), plus the cult adjustment (+50 for health, -50 for
renunciation, 0 otherwise). -/
theorem c2_wagon_wheel_speed (i : TribeInput)
    (hw : i.items.wagon = true) (ht : i.tech.wheel = true) :
    (calculate_speed_and_squads i).1 =
      Int.tdiv ((400 + i.trait_effects.speed_delta) * 3) 2 +
        (if i.cult = Cult.health then 50
          else if i.cult = Cult.renunciation then -50
          else 0) := by
  simp [calculate_speed_and_squads, hw, ht]
  split_ifs <;> ring

/-- C2 witness: the amended speed formula evaluated at the concrete input
with wagon, wheel and speed delta -401. -/
theorem c2_witness :
    (c2_input.items.wagon = true ∧ c2_input.tech.wheel = true) ∧
    (calculate_speed_and_squads c2_input).1 =
      Int.tdiv ((400 + c2_input.trait_effects.speed_delta) * 3) 2 +
        (if c2_input.cult = Cult.health then 50
          else if c2_input.cult = Cult.renunciation then -50
          else 0) :=
  ⟨⟨rfl, rfl⟩, c2_wagon_wheel_speed c2_input rfl rfl⟩

/-- C2 counterexample: at the input with wagon, wheel and speed delta -401
the code returns speed -1 (truncation of -1.5 toward zero), while the
claimed floor toward negative infinity of (400 - 401) * 1.5 is -2. -/
theorem c2_counterexample :
    (calculate_speed_and_squads c2_input).1 = -1 ∧
    Int.fdiv ((400 + c2_input.trait_effects.speed_delta) * 3) 2 = -2 := by
  decide

/-- C3: the orchestrator on the default input produces growth rate 20,
production total 1000, raw battle power 4000 scaled to 1, total science 2,
resource income (1, 0, 0), speed 400 and a single squad. -/
theorem c3_default_scenario :
    (compute_stats default_input).fertility.growth_rate = 20 ∧
    (compute_stats default_input).production.total_op = 1000 ∧
    (compute_stats default_input).battle.battle_power_raw = 4000 ∧
    (compute_stats default_input).battle.battle_power_scaled = 1 ∧
    (compute_stats default_input).science.total_science = 2 ∧
    (compute_stats default_input).dna_income = { human := 1, animal := 0, plant := 0 } ∧
    (compute_stats default_input).speed = 400 ∧
    (compute_stats default_input).max_squads = 1 := by
  refine ⟨by decide, ?_, ?_, ?_, by decide, by decide, by decide, by decide⟩
  · norm_num [compute_stats, calculate_production, default_input, ProductionStats.total_op,
      Int.fdiv]
    split_ifs <;> simp_all
  · norm_num [compute_stats, calculate_battle_stats, _weapon_allocation, default_input]
  · norm_num [compute_stats, calculate_battle_stats, _weapon_allocation, default_input]

/-- C4: the weapon allocation is greedy in the order bows, spears, clubs,
each type taking the minimum of its stock and the remaining population
slots; the total never exceeds the population and every per-type usage is
non-negative, so no slot is counted twice. -/
theorem c4_weapon_allocation_greedy (population : Int) (weapons : WeaponStock)
    (hp : 0 ≤ population) (hc : 0 ≤ weapons.clubs) (hs : 0 ≤ weapons.spears)
    (hb : 0 ≤ weapons.bows) :
    (_weapon_allocation population weapons).bows = min weapons.bows population ∧
    (_weapon_allocation population weapons).spears =
      min weapons.spears (population - (_weapon_allocation population weapons).bows) ∧
    (_weapon_allocation population weapons).clubs =
      min weapons.clubs (population - (_weapon_allocation population weapons).bows -
        (_weapon_allocation population weapons).spears) ∧
    (_weapon_allocation population weapons).bows + (_weapon_allocation population weapons).spears +
      (_weapon_allocation population weapons).clubs ≤ population ∧
    0 ≤ (_weapon_allocation population weapons).bows ∧
    0 ≤ (_weapon_allocation population weapons).spears ∧
    0 ≤ (_weapon_allocation population weapons).clubs := by
  simp only [_weapon_allocation, true_and, inf_eq_min]
  omega

/-- C4 witness: allocation at population 5 with stocks of 10 clubs, 2 spears
and 3 bows uses at most 5 units in total. -/
theorem c4_witness :
    ((0 : Int) ≤ 5 ∧ (0 : Int) ≤ 10 ∧ (0 : Int) ≤ 2 ∧ (0 : Int) ≤ 3) ∧
    (_weapon_allocation 5 { clubs := 10, spears := 2, bows := 3 }).bows +
      (_weapon_allocation 5 { clubs := 10, spears := 2, bows := 3 }).spears +
      (_weapon_allocation 5 { clubs := 10, spears := 2, bows := 3 }).clubs ≤ 5 :=
  ⟨⟨by decide, by decide, by decide, by decide⟩,
    (c4_weapon_allocation_greedy 5 { clubs := 10, spears := 2, bows := 3 }
      (by decide) (by decide) (by decide) (by decide)).2.2.2.1⟩

/-- C5: setting the alcoholism technology doubles every channel of the
resource income, channel-wise, whatever the other tech flags and the cult. -/
theorem c5_alcoholism_doubles (i : TribeInput) :
    (calculate_dna_income { i with tech := { i.tech with alcoholism := true } }).human =
      2 * (calculate_dna_income { i with tech := { i.tech with alcoholism := false } }).human ∧
    (calculate_dna_income { i with tech := { i.tech with alcoholism := true } }).animal =
      2 * (calculate_dna_income { i with tech := { i.tech with alcoholism := false } }).animal ∧
    (calculate_dna_income { i with tech := { i.tech with alcoholism := true } }).plant =
      2 * (calculate_dna_income { i with tech := { i.tech with alcoholism := false } }).plant := by
  simp [calculate_dna_income]
  split_ifs <;> omega

/-- C6: raising any single weapon stock never lowers the squad count, and
changing a stock while it stays strictly below the population leaves the
squad count unchanged. -/
theorem c6_squads_monotone (i : TribeInput) (n : Int)
    (hp : 0 ≤ i.population) (hc : 0 ≤ i.weapons.clubs) (hs : 0 ≤ i.weapons.spears)
    (hb : 0 ≤ i.weapons.bows) (hn : 0 ≤ n) :
    (i.weapons.bows ≤ n →
      (calculate_speed_and_squads i).2 ≤
        (calculate_speed_and_squads { i with weapons := { i.weapons with bows := n } }).2) ∧
    (i.weapons.spears ≤ n →
      (calculate_speed_and_squads i).2 ≤
        (calculate_speed_and_squads { i with weapons := { i.weapons with spears := n } }).2) ∧
    (i.weapons.clubs ≤ n →
      (calculate_speed_and_squads i).2 ≤
        (calculate_speed_and_squads { i with weapons := { i.weapons with clubs := n } }).2) ∧
    (n < i.population → i.weapons.bows < i.population →
      (calculate_speed_and_squads { i with weapons := { i.weapons with bows := n } }).2 =
        (calculate_speed_and_squads i).2) ∧
    (n < i.population → i.weapons.spears < i.population →
      (calculate_speed_and_squads { i with weapons := { i.weapons with spears := n } }).2 =
        (calculate_speed_and_squads i).2) ∧
    (n < i.population → i.weapons.clubs < i.population →
      (calculate_speed_and_squads { i with weapons := { i.weapons with clubs := n } }).2 =
        (calculate_speed_and_squads i).2) := by
  simp only [squads_char]
  dsimp only
  split_ifs <;> omega

/-- C6 witness: raising the bow stock of the default input to 1000 does not
lower the squad count. -/
theorem c6_witness :
    ((0 : Int) ≤ default_input.population ∧ (0 : Int) ≤ default_input.weapons.clubs ∧
      (0 : Int) ≤ default_input.weapons.spears ∧ (0 : Int) ≤ default_input.weapons.bows ∧
      (0 : Int) ≤ 1000 ∧ default_input.weapons.bows ≤ 1000) ∧
    (calculate_speed_and_squads default_input).2 ≤
      (calculate_speed_and_squads
        { default_input with weapons := { default_input.weapons with bows := 1000 } }).2 :=
  ⟨⟨by decide, by decide, by decide, by decide, by decide, by decide⟩,
    (c6_squads_monotone default_input 1000 (by decide) (by decide) (by decide) (by decide)
      (by decide)).1 (by decide)⟩

/-- C7: with the clothes technology unlocked and non-negative coverage, the
cold mortality is the climate base plus the trait delta minus 10 per full
20% of coverage, floored at 0: coverage below 20% gives no reduction,
coverage in 20-39% subtracts exactly 10, the result is never negative, and
with the clothes technology locked the coverage is ignored. -/
theorem c7_clothing_steps (i : TribeInput) (hcov : 0 ≤ i.tools.clothing_pct) :
    (i.tech.clothes = true →
      ((calculate_fertility i).cold_mortality =
          max 0 (CLIMATE_COLD_MORTALITY i.climate + i.trait_effects.cold_mortality_delta -
            Int.fdiv i.tools.clothing_pct 20 * 10) ∧
        (i.tools.clothing_pct < 20 →
          (calculate_fertility i).cold_mortality =
            max 0 (CLIMATE_COLD_MORTALITY i.climate + i.trait_effects.cold_mortality_delta)) ∧
        (20 ≤ i.tools.clothing_pct → i.tools.clothing_pct < 40 →
          (calculate_fertility i).cold_mortality =
            max 0 (CLIMATE_COLD_MORTALITY i.climate + i.trait_effects.cold_mortality_delta
              - 10)))) ∧
    0 ≤ (calculate_fertility i).cold_mortality ∧
    (i.tech.clothes = false →
      (calculate_fertility i).cold_mortality =
        max 0 (CLIMATE_COLD_MORTALITY i.climate + i.trait_effects.cold_mortality_delta)) := by
  have h20 : (0 : Int) ≤ 20 := by norm_num
  have hfd : Int.fdiv i.tools.clothing_pct 20 = i.tools.clothing_pct / 20 :=
    Int.fdiv_eq_ediv _ h20
  cases hcl : i.tech.clothes with
  | false =>
    simp [calculate_fertility, _apply_clothing, hcl]
  | true =>
    have hcold : (calculate_fertility i).cold_mortality =
        max 0 (CLIMATE_COLD_MORTALITY i.climate + i.trait_effects.cold_mortality_delta -
          Int.fdiv i.tools.clothing_pct 20 * 10) := by
      simp [calculate_fertility, _apply_clothing, hcl]
    refine ⟨fun _ => ⟨hcold, fun hlt => ?_, fun hge hlt => ?_⟩, ?_,
      fun hf => absurd hf (by decide)⟩
    · rw [hcold, hfd, (by omega : i.tools.clothing_pct / 20 = 0)]
      norm_num
    · rw [hcold, hfd, (by omega : i.tools.clothing_pct / 20 = 1)]
      norm_num
    · rw [hcold]
      exact le_max_left 0 _

/-- C7 witness: the clothing-step properties at the concrete input with the
clothes technology, 40% coverage and snow climate. -/
theorem c7_witness :
    (0 : Int) ≤ c7_input.tools.clothing_pct ∧
    0 ≤ (calculate_fertility c7_input).cold_mortality :=
  ⟨by decide, (c7_clothing_steps c7_input (by decide)).2.1⟩

/-- C8: the raft bonus is 0 whenever the raft coverage is 0 or the water
body is none, regardless of every other field. -/
theorem c8_raft_zero (i : TribeInput)
    (h : i.tools.rafts_pct = 0 ∨ i.water_body = WaterBody.none) :
    _raft_bonus i = 0 ∧ (calculate_fertility i).raft_bonus = 0 := by
  have hr : _raft_bonus i = 0 := by
    rcases h with h | h
    · simp [_raft_bonus, h]
    · simp [_raft_bonus, h, RAFT_FERTILITY_BONUS]
  exact ⟨hr, by simp [calculate_fertility, hr]⟩

/-- C8 witness: the default input has raft coverage 0 and water body none,
and its raft bonus is 0. -/
theorem c8_witness :
    (default_input.tools.rafts_pct = 0 ∨ default_input.water_body = WaterBody.none) ∧
    _raft_bonus default_input = 0 :=
  ⟨Or.inl rfl, (c8_raft_zero default_input (Or.inl rfl)).1⟩

/-- C9: total science is the flat baseline 2, plus 1 exactly when both the
settlement item and the building technology are present, plus the cult bonus
(+1 mind, -1 renunciation, 0 otherwise), plus the trait science delta; the
casino totem contributes exactly 0. -/
theorem c9_science_formula (i : TribeInput) :
    (calculate_science i).passive_science =
      2 + (if i.items.settlement && i.tech.building then 1 else 0) ∧
    (calculate_science i).cult_bonus =
      (if i.cult = Cult.mind then 1 else if i.cult = Cult.renunciation then -1 else 0) ∧
    (calculate_science i).item_bonus = i.trait_effects.science_delta ∧
    (calculate_science i).total_science =
      (2 + (if i.items.settlement && i.tech.building then 1 else 0)) +
        (if i.cult = Cult.mind then 1 else if i.cult = Cult.renunciation then -1 else 0) +
        i.trait_effects.science_delta := by
  simp only [calculate_science, ScienceStats.total_science]
  split_ifs <;> norm_num

/-- C10: with population 0 and all weapon stocks 0, the fully-armed check
holds vacuously through the bow comparison, so the squad count is 4 even
without the wagon-and-wheel override. -/
theorem c10_zero_population (i : TribeInput)
    (hp : i.population = 0)
    (hw : i.weapons = { clubs := 0, spears := 0, bows := 0 })
    (hnw : ¬(i.items.wagon = true ∧ i.tech.wheel = true)) :
    (calculate_speed_and_squads i).2 = 4 := by
  rw [squads_char]
  simp only [hp, hw]
  split_ifs <;> omega

/-- C10 witness: the default input with population 0 yields 4 squads. -/
theorem c10_witness :
    (c10_input.population = 0 ∧
      c10_input.weapons = { clubs := 0, spears := 0, bows := 0 } ∧
      ¬(c10_input.items.wagon = true ∧ c10_input.tech.wheel = true)) ∧
    (calculate_speed_and_squads c10_input).2 = 4 :=
  ⟨⟨rfl, rfl, by decide⟩, c10_zero_population c10_input rfl rfl (by decide)⟩

end SettlementStats
